import Mathlib

/-!
Shallow embedding of the audio-quiz assembly pipeline (src/main.py) and the
script-JSON client (src/call_openai_api.py).

Modelling conventions:
* A pydub `AudioSegment` is a list of per-millisecond sample expressions.
  The expression language records exactly the operations the program uses:
  raw samples of a named source clip, additive-dB gain, and additive mixing.
  `len(segment)` is the list length (pydub reports milliseconds).
* pydub operations used by the source are modelled from pydub's documented
  semantics: `a + b` is concatenation (`List.append`), `seg - db` is
  `apply_gain (-db)` applied to every sample, `overlay` at position 0 mixes
  the second segment into a copy of the first and discards any excess of the
  second segment (result length = length of the first), `seg * n` repeats the
  segment `n` times, and `seg[:ms]` is `List.take ms`.
* The three network collaborators (TTS, music generation, script JSON) are
  out of scope per the spec; their outcomes are an `Env` of oracles indexed
  by track/event position. `none` is any synthesis failure.
* Successfully synthesized clips are written to disk and re-loaded with
  `AudioSegment.from_wav`; the file round-trip is modelled as lossless
  (storage errors after a successful synthesis are not modelled; no claim
  depends on them).
* Python `math.ceil(a / b)` on nonnegative integers is modelled as exact
  ceiling division `(a + b - 1) / b` on `Nat`; the float division in the
  source is exact in this sense for every duration below about 2^43 ms.
-/

/-- One millisecond-frame sample expression of an audio clip. -/
inductive Sample
  /-- Sample number `i` of the raw source clip named `name`. -/
  | src : String → Nat → Sample
  /-- The sample with a gain of `db` decibels applied (pydub `apply_gain`). -/
  | gain : Int → Sample → Sample
  /-- Additive mix of two samples (pydub `overlay`). -/
  | mix : Sample → Sample → Sample
deriving DecidableEq, Repr

/-- A pydub `AudioSegment`: a list of per-millisecond samples. -/
abbrev AudioSegment := List Sample

/-- pydub `segment.apply_gain db` (the source writes `segment - db`, which is
`apply_gain (-db)`): the gain is applied to every sample, length unchanged. -/
def applyGain (db : Int) (a : AudioSegment) : AudioSegment :=
  a.map (Sample.gain db)

/-- pydub `base.overlay(other)` at position 0: `other` is mixed additively
into a copy of `base`; any part of `other` beyond the end of `base` is
discarded, so the result has the length of `base`. -/
def overlay : AudioSegment → AudioSegment → AudioSegment
  | [], _ => []
  | b :: bs, [] => b :: bs
  | b :: bs, o :: os => Sample.mix b o :: overlay bs os

/-- pydub `segment * n`: `n` copies of the segment concatenated. -/
def repeatSeg (a : AudioSegment) : Nat → AudioSegment
  | 0 => []
  | n + 1 => a ++ repeatSeg a n

/-- `MUSIC_OVERLAY_VOLUME_REDUCTION_DB` from src/main.py line 29. -/
def MUSIC_OVERLAY_VOLUME_REDUCTION_DB : Int := 20

/-- `BGM_OVERLAY_VOLUME_REDUCTION_DB` from src/main.py line 30. -/
def BGM_OVERLAY_VOLUME_REDUCTION_DB : Int := 26

/-- `BGM_DURATION_SECONDS` from src/main.py line 31. -/
def BGM_DURATION_SECONDS : Nat := 30

/-- `music_duration_sec = math.ceil(dialogue_duration_ms / 1000)` from
src/main.py line 187, as exact ceiling division on `Nat`. -/
def musicDurationSec (ms : Nat) : Nat := (ms + 999) / 1000

/-- The JSON value found under an event's `"duration"` key: either a JSON
integer or some non-integer value (the source checks
`isinstance(duration_sec, int)`, src/main.py line 231). -/
inductive DurVal
  | int : Int → DurVal
  | nonInt : DurVal
deriving DecidableEq, Repr

/-- The test `isinstance(duration_sec, int) and duration_sec > 0`
(negation of the skip condition at src/main.py line 231). -/
def isValidDuration : DurVal → Bool
  | .int n => decide (0 < n)
  | .nonInt => false

/-- The nonnegative number of seconds a valid duration denotes. -/
def durToNat : DurVal → Nat
  | .int n => n.toNat
  | .nonInt => 0

/-- One event object of the model's script JSON, keyed by the presence of the
`"dialogue"`, `"music"` and `"duration"` keys (src/main.py lines 165, 225). -/
structure RawEvent where
  dialogue : Option String
  music : Option String
  duration : Option DurVal
deriving DecidableEq, Repr

/-- Outcomes of the external collaborators for one run, indexed by the track
and event position the pipeline is processing. `none` means the synthesis
call failed (`generate_and_save_dialogue` / `generate_and_save_music`
returned `False`). -/
structure Env where
  /-- Result of `generate_and_save_dialogue` plus loading the saved wav, for
  the event at the given track and event index. -/
  dialogueResult : Nat → Nat → Option AudioSegment
  /-- Result of `generate_and_save_music` plus loading the saved wav, for the
  event at the given track and event index and the requested whole-second
  duration. -/
  musicResult : Nat → Nat → Nat → Option AudioSegment
  /-- Result of generating the overall BGM clip (src/main.py line 292). -/
  bgmResult : Option AudioSegment
  /-- Whether the first `final_audio.export` call succeeds (line 274). -/
  exportOk : Bool
  /-- Whether an unexpected exception interrupts the assembly phase (the
  handler at src/main.py line 338). -/
  raisesMidAssembly : Bool

/-- What processing one event does to the run, src/main.py lines 159-256. -/
structure EventOutcome where
  /-- The clip appended to the track buffer at line 255 (`none`: nothing is
  appended for this event). -/
  contribution : Option AudioSegment
  /-- Whether this event set `processing_successful = False`. -/
  degraded : Bool
  /-- Number of warning/error diagnostics printed by the event dispatch. -/
  diagnostics : Nat
  /-- The whole-second duration passed to `generate_and_save_music`, when the
  event requested music synthesis. -/
  requestedMusicSec : Option Nat
deriving DecidableEq, Repr

/-- Event dispatch, src/main.py lines 159-256.

Case 1 (`"dialogue" in event and "music" in event`, line 165): synthesize
dialogue; on failure skip the event and set the degraded flag (lines
174-177).  On success request music for `ceil(ms/1000)` seconds (line 187);
if music fails, the source loads the dialogue clip into `event_audio` and
then executes `continue` (line 198), which jumps past the append at lines
253-255, so nothing is contributed and `processing_successful` is untouched.
If music succeeds, overlay the 20 dB-attenuated music onto the dialogue
(lines 209-211).

Case 2 (`"music" in event and "duration" in event and "dialogue" not in
event`, line 225): skip with one warning when the duration is not a positive
integer (lines 231-233, no degraded flag); otherwise synthesize music for
exactly the requested duration, appending the raw clip (lines 236-243); a
synthesis failure skips the event and sets the degraded flag.

Otherwise (line 249): unrecognized structure, skip with one warning. -/
def processEvent (env : Env) (ti ei : Nat) (ev : RawEvent) : EventOutcome :=
  match ev.dialogue, ev.music, ev.duration with
  | some _, some _, _ =>
    match env.dialogueResult ti ei with
    | none => ⟨none, true, 1, none⟩
    | some dseg =>
      let secs := musicDurationSec dseg.length
      match env.musicResult ti ei secs with
      | none => ⟨none, false, 1, some secs⟩
      | some mseg =>
        ⟨some (overlay dseg (applyGain (-MUSIC_OVERLAY_VOLUME_REDUCTION_DB) mseg)),
          false, 0, some secs⟩
  | none, some _, some d =>
    if isValidDuration d then
      match env.musicResult ti ei (durToNat d) with
      | none => ⟨none, true, 1, some (durToNat d)⟩
      | some mseg => ⟨some mseg, false, 0, some (durToNat d)⟩
    else
      ⟨none, false, 1, none⟩
  | _, _, _ => ⟨none, false, 1, none⟩

/-- State of the inner event loop for one track: the track buffer, the
degraded flag and the diagnostics printed so far. -/
structure TrackOutcome where
  audio : AudioSegment
  degraded : Bool
  diagnostics : Nat
deriving DecidableEq, Repr

/-- The inner loop `for j, event in enumerate(track_data)` of src/main.py
lines 159-256: process each event in order and append its contribution (when
there is one) to the track buffer. -/
def trackLoop (env : Env) (ti : Nat) : Nat → TrackOutcome → List RawEvent → TrackOutcome
  | _, acc, [] => acc
  | ei, acc, ev :: rest =>
    let o := processEvent env ti ei ev
    trackLoop env ti (ei + 1)
      ⟨match o.contribution with
        | some a => acc.audio ++ a
        | none => acc.audio,
       acc.degraded || o.degraded,
       acc.diagnostics + o.diagnostics⟩ rest

/-- One element of the model's `script` list: either a JSON list of event
objects, or a non-list value (skipped with a warning at src/main.py
lines 153-155). -/
inductive JsonTrack
  | track : List RawEvent → JsonTrack
  | notList : JsonTrack
deriving DecidableEq, Repr

/-- The JSON value found under the reply's top-level `"script"` key: a JSON
list of tracks, or any non-list value. -/
inductive ScriptVal
  | list : List JsonTrack → ScriptVal
  | notList : ScriptVal
deriving DecidableEq, Repr

/-- The parsed JSON document returned by the model: the optional top-level
`"script"` entry and the `"overall_bgm"` text (absent is modelled as `""`,
matching `audio_json_output.get("overall_bgm", "")` at src/main.py
line 283). Other top-level keys are ignored by the program. -/
structure ScriptJson where
  script : Option ScriptVal
  overallBgm : String
deriving DecidableEq, Repr

/-- The model collaborator's raw reply as far as the program inspects it:
either content that fails `json.loads`, or a parsed JSON document. -/
inductive ModelReply
  | notJson : ModelReply
  | json : ScriptJson → ModelReply
deriving DecidableEq, Repr

/-- `get_audio_script_json` (src/call_openai_api.py lines 20-77): parse the
reply with `json.loads`; a `JSONDecodeError` returns `None`, otherwise the
parsed document is returned as-is with no validation of its contents.
(Transport and API errors also return `None`; they are out of scope here.) -/
def get_audio_script_json : ModelReply → Option ScriptJson
  | .notJson => none
  | .json d => some d

/-- The validation of the parsed reply in `main`, src/main.py lines 142-146:
`script_data = audio_json_output.get("script")` followed by
`if not script_data or not isinstance(script_data, list): return`.  A missing
key, a non-list value, and an empty (falsy) list are all rejected; a
non-empty list is accepted with no check on its elements. -/
def scriptCheck (d : ScriptJson) : Option (List JsonTrack) :=
  match d.script with
  | some (.list ts) => if ts.isEmpty then none else some ts
  | some .notList => none
  | none => none

/-- State of the outer track loop: the run-wide `final_audio` buffer and the
`processing_successful` flag (as a degraded flag: `true` means the source's
flag was set to `False`). -/
structure AssembleOutcome where
  mainMix : AudioSegment
  degraded : Bool
deriving DecidableEq, Repr

/-- The outer loop `for i, track_data in enumerate(script_data)` of
src/main.py lines 151-264: non-list tracks are skipped with a warning; for
list tracks the inner loop runs and the track buffer is appended to
`final_audio` when non-empty (line 260). -/
def scriptLoop (env : Env) : Nat → AssembleOutcome → List JsonTrack → AssembleOutcome
  | _, acc, [] => acc
  | ti, acc, .notList :: rest => scriptLoop env (ti + 1) acc rest
  | ti, acc, .track evs :: rest =>
    let t := trackLoop env ti 0 ⟨[], false, 0⟩ evs
    scriptLoop env (ti + 1)
      ⟨if 0 < t.audio.length then acc.mainMix ++ t.audio else acc.mainMix,
       acc.degraded || t.degraded⟩ rest

/-- `loops_needed = math.ceil(final_duration_ms / len(bgm_segment))`,
src/main.py line 299, as exact ceiling division on `Nat`. -/
def loopsNeeded (finalMs bgmMs : Nat) : Nat := (finalMs + bgmMs - 1) / bgmMs

/-- The looped-and-trimmed BGM of src/main.py lines 306-309:
`extended_bgm = bgm_segment * loops_needed` then
`extended_bgm = extended_bgm[:final_duration_ms]`. -/
def loopedTrimmedBgm (finalAudio bgm : AudioSegment) : AudioSegment :=
  (repeatSeg bgm (loopsNeeded finalAudio.length bgm.length)).take finalAudio.length

/-- Application of the overall BGM, src/main.py lines 297-316: loop the BGM,
trim it to the main mix's duration, attenuate by 26 dB, and overlay it under
the main mix. -/
def applyBgm (finalAudio bgm : AudioSegment) : AudioSegment :=
  overlay finalAudio (applyGain (-BGM_OVERLAY_VOLUME_REDUCTION_DB) (loopedTrimmedBgm finalAudio bgm))

/-- Observable outcome of one whole run of `main` (src/main.py lines 43-353)
after the reply from the model has been received. -/
structure RunResult where
  /-- Whether the per-run temporary audio directory still exists when `main`
  returns. -/
  tempDirExistsAfter : Bool
  /-- Whether the run returned before entering the assembly loop. -/
  abortedBeforeAssembly : Bool
  /-- The run-wide `final_audio` buffer when assembly finished. -/
  mainMix : AudioSegment
  /-- Whether `processing_successful` was `False` at the end of the run. -/
  degraded : Bool
  /-- Whether the first combined file was successfully exported (line 274). -/
  exported : Bool
deriving Repr

/-- The run of `main` from the model reply onward, src/main.py lines 123-353.

Control flow mirrored from the source: a reply that fails to parse returns
at line 127, before the temporary directory is created at line 137.  A parsed
reply whose `script` entry fails the check at lines 144-146 returns at
line 146 — after the temporary directory was created and before the
`try`/`finally` beginning at line 150, so the directory is left in place.
All later paths are inside the `try` and reach the `finally` cleanup at
lines 341-349: an unexpected exception is caught at line 338 (setting
`processing_successful = False`), and otherwise the assembly loop runs and
the first export is attempted only when `final_audio` is non-empty and
`processing_successful` is still `True` (line 267).  The BGM second output
(lines 281-330) creates no observable modelled here beyond `applyBgm`. -/
def runMain (env : Env) (reply : ModelReply) : RunResult :=
  match get_audio_script_json reply with
  | none => ⟨false, true, [], false, false⟩
  | some d =>
    match scriptCheck d with
    | none => ⟨true, true, [], false, false⟩
    | some tracks =>
      if env.raisesMidAssembly then
        ⟨false, false, [], true, false⟩
      else
        let a := scriptLoop env 0 ⟨[], false⟩ tracks
        let doExport := 0 < a.mainMix.length && !a.degraded
        let exportFailed := doExport && !env.exportOk
        ⟨false, false, a.mainMix, a.degraded || exportFailed, doExport && env.exportOk⟩

-- Concrete fixtures used by witnesses and counterexamples.

/-- A concrete 4200 ms dialogue clip. -/
def clipDialogue : AudioSegment := List.replicate 4200 (Sample.src "dialogue" 0)

/-- A concrete 5000 ms music clip. -/
def clipMusic : AudioSegment := List.replicate 5000 (Sample.src "music" 0)

/-- An environment in which every collaborator call succeeds. -/
def envAllOk : Env :=
  ⟨fun _ _ => some clipDialogue, fun _ _ _ => some clipMusic, some clipMusic,
    true, false⟩

/-- An environment in which dialogue synthesis succeeds but every music
synthesis call fails. -/
def envMusicFails : Env :=
  ⟨fun _ _ => some clipDialogue, fun _ _ _ => none, none, true, false⟩

/-- A one-sample clip used in small whole-run fixtures. -/
def clipUnit : AudioSegment := [Sample.src "unit" 0]

/-- An environment in which music synthesis fails exactly at event index 0
of each track and succeeds elsewhere with `clipUnit`. -/
def envFirstEventFails : Env :=
  ⟨fun _ _ => some clipDialogue,
   fun _ ei _ => if ei = 0 then none else some clipUnit,
   some clipUnit, true, false⟩

/-- Modelled from the spec: the spec's minimum requirement on the parsed
reply — "a `script` field whose value is a sequence of sequences" — stated
as a predicate on the parsed document, for comparison with the source's
`scriptCheck`. -/
def scriptIsSeqOfSeqs (d : ScriptJson) : Bool :=
  match d.script with
  | some (.list ts) =>
      ts.all (fun t => match t with | .track _ => true | .notList => false)
  | _ => false

/-- A parsed reply like `{"script": [42]}`: the `script` value is a sequence
whose single element is not a sequence. -/
def docScriptNotSeqOfSeqs : ScriptJson := ⟨some (.list [JsonTrack.notList]), ""⟩

/-- A parsed reply whose `script` entry is present but is not a list. -/
def docMalformedScript : ScriptJson := ⟨some ScriptVal.notList, ""⟩

/-- A one-track script with two standalone music events of 2 seconds. -/
def trackTwoEvents : List RawEvent :=
  [⟨none, some "whoosh", some (.int 2)⟩, ⟨none, some "chime", some (.int 2)⟩]

/-- A parsed reply carrying `trackTwoEvents` as its single track. -/
def docTwoEvents : ScriptJson := ⟨some (.list [.track trackTwoEvents]), ""⟩

/-- A concrete 125,000 ms main mix. -/
def mixW : AudioSegment := List.replicate 125000 (Sample.src "mix" 0)

/-- A concrete 30,000 ms BGM clip. -/
def bgmW : AudioSegment := List.replicate 30000 (Sample.src "bgm" 0)

-- Basic lemmas about the audio model.

theorem overlay_length (a b : AudioSegment) : (overlay a b).length = a.length := by
  induction a generalizing b with
  | nil => cases b <;> rfl
  | cons x xs ih =>
    cases b with
    | nil => rfl
    | cons y ys => simp [overlay, ih]

theorem applyGain_length (db : Int) (a : AudioSegment) :
    (applyGain db a).length = a.length := by
  simp [applyGain]

theorem repeatSeg_length (a : AudioSegment) (n : Nat) :
    (repeatSeg a n).length = n * a.length := by
  induction n with
  | zero => simp [repeatSeg]
  | succ k ih => simp [repeatSeg, ih, Nat.succ_mul, Nat.add_comm]

/-- The per-event clips the pipeline appends to the track buffer, in event
order, starting at event index `ei`: the successfully produced contributions
of `processEvent`.  Derived observable used to state the concatenation
claims about the loops. -/
def eventContribs (env : Env) (ti : Nat) : Nat → List RawEvent → List AudioSegment
  | _, [] => []
  | ei, ev :: rest =>
    match (processEvent env ti ei ev).contribution with
    | some a => a :: eventContribs env ti (ei + 1) rest
    | none => eventContribs env ti (ei + 1) rest

/-- All per-event contributions of a whole script, in script order: track
order first, then event order within each track; non-list tracks contribute
nothing. -/
def scriptContribs (env : Env) : Nat → List JsonTrack → List AudioSegment
  | _, [] => []
  | ti, .notList :: rest => scriptContribs env (ti + 1) rest
  | ti, .track evs :: rest =>
    eventContribs env ti 0 evs ++ scriptContribs env (ti + 1) rest

theorem overlay_take (a b : AudioSegment) :
    overlay a b = overlay a (b.take a.length) := by
  induction a generalizing b with
  | nil => cases b <;> rfl
  | cons x xs ih =>
    cases b with
    | nil => rfl
    | cons y ys =>
      show Sample.mix x y :: overlay xs ys
          = Sample.mix x y :: overlay xs (ys.take xs.length)
      rw [ih ys]

theorem trackLoop_audio (env : Env) (ti : Nat) (evs : List RawEvent) :
    ∀ (ei : Nat) (acc : TrackOutcome),
      (trackLoop env ti ei acc evs).audio
        = acc.audio ++ (eventContribs env ti ei evs).flatten := by
  induction evs with
  | nil => intro ei acc; simp [trackLoop, eventContribs]
  | cons ev rest ih =>
    intro ei acc
    rw [trackLoop, eventContribs]
    cases h : (processEvent env ti ei ev).contribution with
    | none => simp [h, ih]
    | some a => simp [h, ih, List.append_assoc]

theorem scriptLoop_mainMix (env : Env) (tracks : List JsonTrack) :
    ∀ (ti : Nat) (acc : AssembleOutcome),
      (scriptLoop env ti acc tracks).mainMix
        = acc.mainMix ++ (scriptContribs env ti tracks).flatten := by
  induction tracks with
  | nil => intro ti acc; simp [scriptLoop, scriptContribs]
  | cons t rest ih =>
    intro ti acc
    cases t with
    | notList => rw [scriptLoop, scriptContribs]; exact ih (ti + 1) acc
    | track evs =>
      rw [scriptLoop, scriptContribs]
      have ht := trackLoop_audio env ti evs 0 ⟨[], false, 0⟩
      simp only [List.nil_append] at ht
      by_cases hp : 0 < (trackLoop env ti 0 ⟨[], false, 0⟩ evs).audio.length
      · simp only [hp, if_pos]
        rw [ih, ht, List.flatten_append, List.append_assoc]
      · have hz : (trackLoop env ti 0 ⟨[], false, 0⟩ evs).audio = [] := by
          cases hq : (trackLoop env ti 0 ⟨[], false, 0⟩ evs).audio with
          | nil => rfl
          | cons x xs => rw [hq] at hp; simp at hp
        simp only [hp, if_neg, Bool.not_eq_true]
        rw [ih, List.flatten_append, ← ht, hz]
        simp

theorem ceil_mul_bounds (n d : Nat) (hd : 0 < d) :
    n ≤ (n + d - 1) / d * d ∧ (n + d - 1) / d * d < n + d := by
  have h := Nat.div_add_mod (n + d - 1) d
  have hr := Nat.mod_lt (n + d - 1) hd
  constructor
  · calc n ≤ n + d - 1 - ((n + d - 1) % d) := by omega
    _ = d * ((n + d - 1) / d) := by omega
    _ = (n + d - 1) / d * d := Nat.mul_comm _ _
  · calc (n + d - 1) / d * d = d * ((n + d - 1) / d) := Nat.mul_comm _ _
    _ ≤ n + d - 1 := by omega
    _ < n + d := by omega

/-- C4: for every environment and script accepted for assembly, the
assembled main mix is the sequential concatenation, in script order (track
order, then event order within each track), of the successfully produced
per-event clips, and its duration equals the sum of those clips'
durations. -/
theorem C4_mix_is_ordered_concat (env : Env) (tracks : List JsonTrack) :
    (scriptLoop env 0 ⟨[], false⟩ tracks).mainMix
        = (scriptContribs env 0 tracks).flatten
    ∧ (scriptLoop env 0 ⟨[], false⟩ tracks).mainMix.length
        = ((scriptContribs env 0 tracks).map List.length).sum := by
  have h := scriptLoop_mainMix env tracks 0 ⟨[], false⟩
  simp only [List.nil_append] at h
  exact ⟨h, by rw [h, List.length_flatten]⟩

/-- C5: for every dialogue event where both dialogue and music synthesis
succeed, the composited clip equals the dialogue clip overlaid at time zero
with the music clip attenuated by exactly 20 dB; its duration equals the
dialogue clip's duration regardless of the music clip's duration, and music
extending beyond the dialogue is discarded at mix time. -/
theorem C5_overlay_composite (env : Env) (ti ei : Nat) (dt mp : String)
    (dv : Option DurVal) (d m : AudioSegment)
    (hd : env.dialogueResult ti ei = some d)
    (hm : env.musicResult ti ei (musicDurationSec d.length) = some m) :
    (processEvent env ti ei ⟨some dt, some mp, dv⟩).contribution
        = some (overlay d (applyGain (-20) m))
    ∧ (overlay d (applyGain (-20) m)).length = d.length
    ∧ overlay d (applyGain (-20) m)
        = overlay d ((applyGain (-20) m).take d.length) := by
  refine ⟨?_, overlay_length _ _, overlay_take _ _⟩
  unfold processEvent
  simp [hd, hm, MUSIC_OVERLAY_VOLUME_REDUCTION_DB]

/-- C5 witness: the composite at a concrete event of a concrete all-success
environment. -/
theorem C5_overlay_composite_witness :
    (processEvent envAllOk 0 0 ⟨some "hello", some "calm music", none⟩).contribution
        = some (overlay clipDialogue (applyGain (-20) clipMusic))
    ∧ (overlay clipDialogue (applyGain (-20) clipMusic)).length
        = clipDialogue.length
    ∧ overlay clipDialogue (applyGain (-20) clipMusic)
        = overlay clipDialogue ((applyGain (-20) clipMusic).take clipDialogue.length) :=
  C5_overlay_composite envAllOk 0 0 "hello" "calm music" none clipDialogue clipMusic
    rfl rfl

/-- C6: for every dialogue event whose dialogue synthesis succeeds, the
duration requested from the music synthesizer is ceil(durationMs / 1000)
whole seconds — the least whole-second count covering the dialogue — and a
4200 ms dialogue clip requests exactly 5 seconds. -/
theorem C6_music_request_is_ceil (env : Env) (ti ei : Nat) (dt mp : String)
    (dv : Option DurVal) (d : AudioSegment)
    (hd : env.dialogueResult ti ei = some d) :
    (processEvent env ti ei ⟨some dt, some mp, dv⟩).requestedMusicSec
        = some (musicDurationSec d.length)
    ∧ d.length ≤ 1000 * musicDurationSec d.length
    ∧ 1000 * musicDurationSec d.length < d.length + 1000
    ∧ musicDurationSec 4200 = 5 := by
  refine ⟨?_, ?_, ?_, by decide⟩
  · unfold processEvent
    simp only [hd]
    cases env.musicResult ti ei (musicDurationSec d.length) <;> rfl
  · have h := (ceil_mul_bounds d.length 1000 (by decide)).1
    unfold musicDurationSec
    omega
  · have h := (ceil_mul_bounds d.length 1000 (by decide)).2
    unfold musicDurationSec
    omega

/-- C6 witness: a concrete 4200 ms dialogue clip requests exactly 5 seconds
of music. -/
theorem C6_music_request_is_ceil_witness :
    (processEvent envAllOk 0 0 ⟨some "hi", some "waltz", none⟩).requestedMusicSec
        = some (musicDurationSec clipDialogue.length)
    ∧ clipDialogue.length ≤ 1000 * musicDurationSec clipDialogue.length
    ∧ 1000 * musicDurationSec clipDialogue.length < clipDialogue.length + 1000
    ∧ musicDurationSec 4200 = 5 :=
  C6_music_request_is_ceil envAllOk 0 0 "hi" "waltz" none clipDialogue rfl

/-- C10: an event object carrying the "dialogue", "music" and "duration"
keys simultaneously is dispatched to the dialogue branch: its outcome is
identical to that of the same event without the "duration" key (the field is
ignored), and when dialogue synthesis succeeds the music request duration is
derived from the rendered dialogue length; the event is not skipped as
invalid. -/
theorem C10_duration_key_ignored (env : Env) (ti ei : Nat) (dt mp : String)
    (d : DurVal) (dseg : AudioSegment)
    (hd : env.dialogueResult ti ei = some dseg) :
    processEvent env ti ei ⟨some dt, some mp, some d⟩
        = processEvent env ti ei ⟨some dt, some mp, none⟩
    ∧ (processEvent env ti ei ⟨some dt, some mp, some d⟩).requestedMusicSec
        = some (musicDurationSec dseg.length) := by
  constructor
  · rfl
  · unfold processEvent
    simp only [hd]
    cases env.musicResult ti ei (musicDurationSec dseg.length) <;> rfl

/-- C10 witness: a concrete event with all three keys, in the all-success
environment. -/
theorem C10_duration_key_ignored_witness :
    processEvent envAllOk 0 0 ⟨some "hi", some "bop", some (.int 7)⟩
        = processEvent envAllOk 0 0 ⟨some "hi", some "bop", none⟩
    ∧ (processEvent envAllOk 0 0 ⟨some "hi", some "bop", some (.int 7)⟩).requestedMusicSec
        = some (musicDurationSec clipDialogue.length) :=
  C10_duration_key_ignored envAllOk 0 0 "hi" "bop" (.int 7) clipDialogue rfl

/-- C1 (documenting the code bug): for a dialogue event whose dialogue
synthesis succeeds and whose music synthesis fails, the `continue` at
src/main.py line 198 skips the append at line 255, so nothing is contributed
to the track buffer and `processing_successful` is left `True` — the
dialogue clip the source just loaded for its announced dialogue-only
fallback is discarded. -/
theorem C1_music_failure_drops_fallback (env : Env) (ti ei : Nat)
    (dt mp : String) (dv : Option DurVal) (d : AudioSegment)
    (hd : env.dialogueResult ti ei = some d)
    (hm : env.musicResult ti ei (musicDurationSec d.length) = none) :
    (processEvent env ti ei ⟨some dt, some mp, dv⟩).contribution = none
    ∧ (processEvent env ti ei ⟨some dt, some mp, dv⟩).degraded = false := by
  unfold processEvent
  simp [hd, hm]

/-- C1 witness: concrete dialogue event in an environment where music
synthesis fails. -/
theorem C1_music_failure_drops_fallback_witness :
    (processEvent envMusicFails 0 0 ⟨some "hello", some "calm", none⟩).contribution = none
    ∧ (processEvent envMusicFails 0 0 ⟨some "hello", some "calm", none⟩).degraded = false :=
  C1_music_failure_drops_fallback envMusicFails 0 0 "hello" "calm" none clipDialogue
    rfl rfl

/-- C8: a standalone music event whose duration is not a positive integer is
skipped with exactly one diagnostic, contributes nothing to the track, and
does not set the degraded flag (the run is not aborted); for a positive
integer duration `k`, music is requested for exactly `k` seconds and, when
synthesis succeeds, the raw clip is appended unmodified. -/
theorem C8_standalone_duration_policy (env : Env) (ti ei : Nat) (mp : String)
    (d : DurVal) :
    (isValidDuration d = false →
      processEvent env ti ei ⟨none, some mp, some d⟩ = ⟨none, false, 1, none⟩)
    ∧ (∀ k : Int, d = .int k → 0 < k →
        (processEvent env ti ei ⟨none, some mp, some d⟩).requestedMusicSec
            = some k.toNat
        ∧ (∀ m : AudioSegment, env.musicResult ti ei k.toNat = some m →
            (processEvent env ti ei ⟨none, some mp, some d⟩).contribution
              = some m)
        ∧ (env.musicResult ti ei k.toNat = none →
            processEvent env ti ei ⟨none, some mp, some d⟩
              = ⟨none, true, 1, some k.toNat⟩)) := by
  constructor
  · intro h
    unfold processEvent
    simp [h]
  · intro k hk hpos
    subst hk
    have hv : isValidDuration (.int k) = true := by
      simp [isValidDuration, hpos]
    refine ⟨?_, ?_, ?_⟩
    · unfold processEvent
      simp only [hv, if_true, durToNat]
      cases env.musicResult ti ei k.toNat <;> rfl
    · intro m hm
      unfold processEvent
      simp [hv, durToNat, hm]
    · intro hm
      unfold processEvent
      simp [hv, durToNat, hm]

/-- C8 witness: a concrete zero duration is skipped with one diagnostic and
no degraded flag, and a concrete 3-second duration yields the raw clip. -/
theorem C8_standalone_duration_policy_witness :
    processEvent envAllOk 0 0 ⟨none, some "tick", some (.int 0)⟩
        = ⟨none, false, 1, none⟩
    ∧ (processEvent envAllOk 0 1 ⟨none, some "tick", some (.int 3)⟩).contribution
        = some clipMusic :=
  ⟨(C8_standalone_duration_policy envAllOk 0 0 "tick" (.int 0)).1 (by decide),
   ((C8_standalone_duration_policy envAllOk 0 1 "tick" (.int 3)).2 3 rfl
      (by decide)).2.1 clipMusic rfl⟩

/-- C7: when the overall BGM clip is applied, the loop count is the ceiling
of the main-mix duration over the BGM duration — the least count whose total
length covers the main mix — and the looped BGM is trimmed to exactly the
main mix's duration before the 26 dB attenuation and the overlay, which
keeps the main mix's duration. -/
theorem C7_bgm_loop_trim (finalAudio bgm : AudioSegment) (hb : 0 < bgm.length) :
    finalAudio.length ≤ loopsNeeded finalAudio.length bgm.length * bgm.length
    ∧ loopsNeeded finalAudio.length bgm.length * bgm.length
        < finalAudio.length + bgm.length
    ∧ (loopedTrimmedBgm finalAudio bgm).length = finalAudio.length
    ∧ applyBgm finalAudio bgm
        = overlay finalAudio (applyGain (-26) (loopedTrimmedBgm finalAudio bgm))
    ∧ (applyBgm finalAudio bgm).length = finalAudio.length := by
  obtain ⟨h1, h2⟩ := ceil_mul_bounds finalAudio.length bgm.length hb
  refine ⟨h1, h2, ?_, rfl, overlay_length _ _⟩
  unfold loopedTrimmedBgm
  rw [List.length_take, repeatSeg_length]
  exact Nat.min_eq_left h1

/-- C7 witness: a 125,000 ms main mix and a 30,000 ms BGM clip need exactly
5 loops, and the looped/trimmed BGM is exactly 125,000 ms long. -/
theorem C7_bgm_loop_trim_witness :
    mixW.length = 125000 ∧ bgmW.length = 30000
    ∧ loopsNeeded 125000 30000 = 5
    ∧ (loopedTrimmedBgm mixW bgmW).length = mixW.length
    ∧ mixW.length ≤ loopsNeeded mixW.length bgmW.length * bgmW.length :=
  ⟨by unfold mixW; rw [List.length_replicate],
   by unfold bgmW; rw [List.length_replicate],
   by decide,
   (C7_bgm_loop_trim mixW bgmW
     (by unfold bgmW; rw [List.length_replicate]; decide)).2.2.1,
   (C7_bgm_loop_trim mixW bgmW
     (by unfold bgmW; rw [List.length_replicate]; decide)).1⟩

/-- C9 counterexample: the parsed reply `{"script": [42]}` is valid JSON
whose `script` value is a sequence but not a sequence of sequences; the
script-JSON client returns it untouched and the run proceeds to assembly
instead of failing. -/
theorem C9_nonseq_elements_accepted :
    scriptIsSeqOfSeqs docScriptNotSeqOfSeqs = false
    ∧ get_audio_script_json (.json docScriptNotSeqOfSeqs)
        = some docScriptNotSeqOfSeqs
    ∧ (runMain envAllOk (.json docScriptNotSeqOfSeqs)).abortedBeforeAssembly
        = false :=
  ⟨rfl, rfl, rfl⟩

/-- C9 (amended): no script reaches assembly exactly when the reply is not
valid JSON, or its `script` entry is missing, not a sequence, or an empty
sequence; the elements of `script` are not validated at this stage, so a
non-empty sequence with non-sequence elements is accepted for assembly
(such elements are skipped with a diagnostic during assembly). -/
theorem C9_parse_gate (env : Env) (reply : ModelReply) :
    (runMain env reply).abortedBeforeAssembly = false
      ↔ ∃ d ts, reply = .json d ∧ d.script = some (.list ts) ∧ ts ≠ [] := by
  cases reply with
  | notJson => simp [runMain, get_audio_script_json]
  | json d =>
    cases hs : d.script with
    | none => simp [runMain, get_audio_script_json, scriptCheck, hs]
    | some v =>
      cases v with
      | notList => simp [runMain, get_audio_script_json, scriptCheck, hs]
      | list ts =>
        cases ts with
        | nil => simp [runMain, get_audio_script_json, scriptCheck, hs]
        | cons t rest =>
          by_cases hr : env.raisesMidAssembly <;>
            simp [runMain, get_audio_script_json, scriptCheck, hs, hr]

/-- C2 counterexample: with music synthesis failing at the first event of
the single track and succeeding at the second, the pipeline still processes
the second event (its clip is the whole main mix) but the final export is
skipped because the run is degraded. -/
theorem C2_export_skipped_when_degraded :
    (runMain envFirstEventFails (.json docTwoEvents)).mainMix = clipUnit
    ∧ (runMain envFirstEventFails (.json docTwoEvents)).degraded = true
    ∧ (runMain envFirstEventFails (.json docTwoEvents)).exported = false :=
  ⟨rfl, rfl, rfl⟩

/-- C2 (amended): an event-level failure does not stop processing of
subsequent events or tracks — the main mix is the concatenation of the
per-event contributions of the whole script — but the final audio is
exported only when the mix is non-empty, no event-level step failed, and
the export call itself succeeds. -/
theorem C2_best_effort_until_export (env : Env) (d : ScriptJson)
    (ts : List JsonTrack) (h2 : scriptCheck d = some ts)
    (h3 : env.raisesMidAssembly = false) :
    (runMain env (.json d)).mainMix = (scriptContribs env 0 ts).flatten
    ∧ ((runMain env (.json d)).exported = true ↔
        (0 < (scriptContribs env 0 ts).flatten.length
          ∧ (scriptLoop env 0 ⟨[], false⟩ ts).degraded = false
          ∧ env.exportOk = true)) := by
  have hmix := scriptLoop_mainMix env ts 0 ⟨[], false⟩
  simp only [List.nil_append] at hmix
  simp only [runMain, get_audio_script_json, h2, h3, Bool.false_eq_true, if_false]
  rw [hmix]
  refine ⟨rfl, ?_⟩
  simp [Bool.and_eq_true, decide_eq_true_eq, Bool.not_eq_true', and_assoc]

/-- C2 witness: the amended statement at a concrete all-success run of the
two-event script. -/
theorem C2_best_effort_until_export_witness :
    (runMain envAllOk (.json docTwoEvents)).mainMix
        = (scriptContribs envAllOk 0 [.track trackTwoEvents]).flatten
    ∧ ((runMain envAllOk (.json docTwoEvents)).exported = true ↔
        (0 < (scriptContribs envAllOk 0 [.track trackTwoEvents]).flatten.length
          ∧ (scriptLoop envAllOk 0 ⟨[], false⟩ [.track trackTwoEvents]).degraded
              = false
          ∧ envAllOk.exportOk = true)) :=
  C2_best_effort_until_export envAllOk docTwoEvents [.track trackTwoEvents] rfl rfl

/-- C3 counterexample: a parsed reply whose `script` entry is not a list
makes `main` return at src/main.py line 146 — after the temporary directory
was created at line 137 and before the try/finally guard at line 150 — so
the temporary directory is still present after the run. -/
theorem C3_tempdir_left_on_malformed_script :
    (runMain envAllOk (.json docMalformedScript)).tempDirExistsAfter = true :=
  rfl

/-- C3 (amended): the temporary audio directory survives the run exactly
when the parsed reply fails the script-structure check of src/main.py
lines 144-146; every other exit path — success, partial failure,
mid-assembly exception, or an unparseable reply (where the directory is
never created) — ends with the directory absent. -/
theorem C3_tempdir_cleanup (env : Env) (reply : ModelReply) :
    (runMain env reply).tempDirExistsAfter = true
      ↔ ∃ d, reply = .json d ∧ scriptCheck d = none := by
  cases reply with
  | notJson => simp [runMain, get_audio_script_json]
  | json d =>
    cases h : scriptCheck d with
    | none => simp [runMain, get_audio_script_json, h]
    | some ts =>
      by_cases hr : env.raisesMidAssembly <;>
        simp [runMain, get_audio_script_json, h, hr]
